import Mathlib

/-!
Verification development for the financial core of the thousand-station
supercharging model (file src/tools/千站主文档.py).

Python floats are modelled as exact rationals, and Python dictionaries
returned by the model methods as Lean structures.  Randomness in the Monte
Carlo sweep is modelled by passing the realized normal draws explicitly as a
list, one pair per trial.  Statements quantify over arbitrary parameter sets
and draw lists, so every theorem is about the translated program text, not
about a particular run.
-/

namespace SuperCharging

/-- Python max(a, b) on rationals: returns b exactly when it is strictly
larger than a. -/
def pyMax (a b : ℚ) : ℚ := if a < b then b else a

/-- Python abs(x) on rationals. -/
def pyAbs (x : ℚ) : ℚ := if x < 0 then -x else x

/-- Python truthy-or with a zero default, as in the expression
base_irr or 0: a None or a zero value falls back to the default 0. -/
def pyOrZero : Option ℚ → ℚ
  | none => 0
  | some x => if x = 0 then 0 else x

/-- Python truthiness test of base_irr and base_irr > t: false when the
value is None or equals 0, otherwise the comparison with t. -/
def pyIrrAbove (x : Option ℚ) (t : ℚ) : Bool :=
  match x with
  | none => false
  | some v => decide (¬ v = 0 ∧ t < v)

/-- The fields of ModelParameters that the financial core reads.  Counts are
Python ints but take part in rational arithmetic; project_years is kept as a
natural number because it only bounds the cash-flow loop. -/
structure Params where
  guns_per_station : ℚ
  utilization_rate : ℚ
  daily_hours : ℚ
  gun_power : ℚ
  price_spread : ℚ
  auxiliary_premium : ℚ
  operating_days : ℚ
  electricity_price : ℚ
  maintenance_per_kwh : ℚ
  labor_cost : ℚ
  rent_cost : ℚ
  other_operating_cost : ℚ
  depreciation_years : ℚ
  residual_value_rate : ℚ
  construction_cost : ℚ
  subsidy_per_station : ℚ
  total_stations : ℚ
  project_years : ℕ
  discount_rate : ℚ
  reits_package_size : ℚ
  reits_cap_rate : ℚ
  reits_distribution_yield : ℚ

/-- The documented default values of ModelParameters (used when the external
markdown source supplies nothing). -/
def defaultParams : Params where
  guns_per_station := 12
  utilization_rate := 3/10
  daily_hours := 20
  gun_power := 180
  price_spread := 55/100
  auxiliary_premium := 3/100
  operating_days := 365
  electricity_price := 40/100
  maintenance_per_kwh := 3/100
  labor_cost := 120000
  rent_cost := 80000
  other_operating_cost := 40000
  depreciation_years := 10
  residual_value_rate := 5/100
  construction_cost := 280
  subsidy_per_station := 80
  total_stations := 1000
  project_years := 10
  discount_rate := 12/100
  reits_package_size := 20
  reits_cap_rate := 6/100
  reits_distribution_yield := 45/1000

/-- The dictionary returned by SingleStationModel.calculate_revenue. -/
structure RevenueResult where
  daily_capacity_per_gun_kwh : ℚ
  daily_capacity_kwh : ℚ
  annual_charging_kwh : ℚ
  service_revenue : ℚ
  auxiliary_revenue : ℚ
  other_revenue : ℚ
  total_revenue : ℚ

/-- SingleStationModel.calculate_revenue. -/
def calculate_revenue (p : Params) : RevenueResult :=
  let daily_capacity_per_gun := p.gun_power * p.utilization_rate * p.daily_hours
  let daily_capacity := daily_capacity_per_gun * p.guns_per_station
  let annual_charging := daily_capacity * p.operating_days
  let service_revenue := annual_charging * p.price_spread
  let auxiliary_revenue := service_revenue * p.auxiliary_premium
  let other_revenue : ℚ := 120000
  let total_revenue := service_revenue + auxiliary_revenue + other_revenue
  { daily_capacity_per_gun_kwh := daily_capacity_per_gun
    daily_capacity_kwh := daily_capacity
    annual_charging_kwh := annual_charging
    service_revenue := service_revenue
    auxiliary_revenue := auxiliary_revenue
    other_revenue := other_revenue
    total_revenue := total_revenue }

/-- The dictionary returned by SingleStationModel.calculate_costs. -/
structure CostResult where
  electricity_cost : ℚ
  maintenance_cost : ℚ
  labor_cost : ℚ
  rent_cost : ℚ
  other_operating_cost : ℚ
  annual_depreciation : ℚ
  total_cost : ℚ

/-- SingleStationModel.calculate_costs; the total_revenue argument is
accepted but unused, exactly as in the source. -/
def calculate_costs (p : Params) (_total_revenue annual_charging_kwh : ℚ) : CostResult :=
  let electricity_cost := annual_charging_kwh * p.electricity_price
  let maintenance_cost := annual_charging_kwh * p.maintenance_per_kwh
  let labor_cost := p.labor_cost
  let rent_cost := p.rent_cost
  let other_operating_cost := p.other_operating_cost
  let net_investment := (p.construction_cost - p.subsidy_per_station) * 10000
  let annual_depreciation := net_investment * (1 - p.residual_value_rate) / p.depreciation_years
  let total_cost := electricity_cost + maintenance_cost + labor_cost + rent_cost
      + other_operating_cost + annual_depreciation
  { electricity_cost := electricity_cost
    maintenance_cost := maintenance_cost
    labor_cost := labor_cost
    rent_cost := rent_cost
    other_operating_cost := other_operating_cost
    annual_depreciation := annual_depreciation
    total_cost := total_cost }

/-- The dictionary returned by SingleStationModel.calculate_profitability.
The payback period lives in WithTop ℚ, whose top element models the Python
sentinel float inf. -/
structure ProfitabilityResult where
  revenue : RevenueResult
  costs : CostResult
  ebitda : ℚ
  net_profit : ℚ
  ebitda_margin : ℚ
  net_margin : ℚ
  payback_period_years : WithTop ℚ

/-- SingleStationModel.calculate_profitability. -/
def calculate_profitability (p : Params) : ProfitabilityResult :=
  let revenue_data := calculate_revenue p
  let cost_data := calculate_costs p revenue_data.total_revenue revenue_data.annual_charging_kwh
  let ebitda := revenue_data.total_revenue -
      (cost_data.electricity_cost + cost_data.maintenance_cost + cost_data.labor_cost
        + cost_data.rent_cost + cost_data.other_operating_cost)
  let net_profit := ebitda - cost_data.annual_depreciation
  let ebitda_margin := if 0 < revenue_data.total_revenue then ebitda / revenue_data.total_revenue else 0
  let net_margin := if 0 < revenue_data.total_revenue then net_profit / revenue_data.total_revenue else 0
  let net_investment := p.construction_cost - p.subsidy_per_station
  let payback_period : WithTop ℚ :=
    if 0 < net_profit then ((net_investment / (net_profit / 10000) : ℚ) : WithTop ℚ) else ⊤
  { revenue := revenue_data
    costs := cost_data
    ebitda := ebitda
    net_profit := net_profit
    ebitda_margin := ebitda_margin
    net_margin := net_margin
    payback_period_years := payback_period }

/-- The default 4-year construction schedule of
ProjectFinanceModel.project_cash_flows. -/
def construction_schedule : List ℚ := [100, 200, 300, 400]

/-- The loop body of project_cash_flows: builds the cash flows from the given
year on, with the given number of years remaining and stations commissioned
so far.  Years beyond the schedule read a zero via getD, which coincides with
the zero-investment else branch of the source. -/
def cashFlowsFrom (p : Params) : ℕ → ℕ → ℚ → List ℚ
  | _, 0, _ => []
  | year, Nat.succ remaining, cumulative =>
    let stations_built := construction_schedule.getD year 0
    let net_investment_per_station := (p.construction_cost - p.subsidy_per_station) * 10000
    let investment := -(stations_built * net_investment_per_station) / 100000000
    let cumulative2 := cumulative + stations_built
    let operating_fcf :=
      if 0 < cumulative2 then cumulative2 * ((calculate_profitability p).ebitda / 100000000)
      else 0
    (investment + operating_fcf) :: cashFlowsFrom p (year + 1) remaining cumulative2

/-- ProjectFinanceModel.project_cash_flows with the default schedule. -/
def project_cash_flows (p : Params) : List ℚ :=
  cashFlowsFrom p 0 p.project_years 0

/-- The generator sum of npv_function inside calculate_irr, with the
enumeration index threaded explicitly. -/
def npvTermsFrom (rate : ℚ) : List ℚ → ℕ → ℚ
  | [], _ => 0
  | cf :: rest, i => cf / (1 + rate) ^ i + npvTermsFrom rate rest (i + 1)

/-- The inner npv_function of calculate_irr: the cash flows discounted at
rate with zero-based year exponents. -/
def npv_function (cash_flows : List ℚ) (rate : ℚ) : ℚ :=
  npvTermsFrom rate cash_flows 0

/-- The bisection tolerance 1e-6 of calculate_irr. -/
def irrTolerance : ℚ := 1/1000000

/-- The bisection loop of calculate_irr, with the remaining iteration count
as fuel.  Fuel zero is the final iteration of range(100): its midpoint is
returned unconditionally, matching the return mid after the loop. -/
def bisectGo (cash_flows : List ℚ) : ℕ → ℚ → ℚ → ℚ
  | 0, low, high => (low + high) / 2
  | Nat.succ n, low, high =>
    let mid := (low + high) / 2
    let npv_mid := npv_function cash_flows mid
    if pyAbs npv_mid < irrTolerance then mid
    else if 0 < npv_mid then bisectGo cash_flows n mid high
    else bisectGo cash_flows n low mid

/-- The value computed by the try block of calculate_irr: 100 bisection
iterations on the rate interval from -0.9 to 1.0. -/
def irrBisect (cash_flows : List ℚ) : ℚ :=
  bisectGo cash_flows 99 (-(9/10)) 1

/-- The except branch of calculate_irr: the approximate IRR fallback, which
is None exactly when the total negative flow is zero. -/
def approximate_irr (cash_flows : List ℚ) : Option ℚ :=
  let total_investment := (cash_flows.filter (fun cf => cf < 0)).sum
  let total_return := (cash_flows.filter (fun cf => 0 < cf)).sum
  if total_investment = 0 then none
  else some ((total_return + total_investment) / pyAbs total_investment / (cash_flows.length : ℚ))

/-- ProjectFinanceModel.calculate_irr.  The Python body runs the bisection
inside a try block; under exact rational arithmetic the body cannot raise
(1 + mid never leaves the positive range on the search interval, and rational
division is total), so the except branch holding approximate_irr is never
entered and the bisection midpoint is always returned. -/
def calculate_irr (cash_flows : List ℚ) : Option ℚ :=
  some (irrBisect cash_flows)

/-- ProjectFinanceModel.calculate_npv with an explicit discount rate (the
Python default argument substitutes params.discount_rate). -/
def calculate_npv (cash_flows : List ℚ) (discount_rate : ℚ) : ℚ :=
  npv_function cash_flows discount_rate

/-- The bisection loop again, paired with a flag recording whether the run
returned through the tolerance test (as opposed to exhausting the iteration
cap with the tolerance never met). -/
def bisectGoConv (cash_flows : List ℚ) : ℕ → ℚ → ℚ → ℚ × Bool
  | 0, low, high =>
    ((low + high) / 2,
      decide (pyAbs (npv_function cash_flows ((low + high) / 2)) < irrTolerance))
  | Nat.succ n, low, high =>
    let mid := (low + high) / 2
    let npv_mid := npv_function cash_flows mid
    if pyAbs npv_mid < irrTolerance then (mid, true)
    else if 0 < npv_mid then bisectGoConv cash_flows n mid high
    else bisectGoConv cash_flows n low mid

/-- irrBisect paired with its convergence flag. -/
def irrBisectConv (cash_flows : List ℚ) : ℚ × Bool :=
  bisectGoConv cash_flows 99 (-(9/10)) 1

/-- One Monte Carlo trial's in-place parameter perturbation.  The components
of d are the realized draws of np.random.normal(0, vol) for utilization_rate
and price_spread.  Each trial perturbs starting from the base values captured
in the factors table (the pre-sweep parameters), so rebuilding from the base
parameter set reproduces the in-place mutation exactly: no other field is
ever written inside the loop. -/
def sensitivityTrialParams (p : Params) (d : ℚ × ℚ) : Params :=
  { p with
    utilization_rate := pyMax (1/10) (p.utilization_rate * (1 + d.1))
    price_spread := pyMax (1/5) (p.price_spread * (1 + d.2)) }

/-- The results list of sensitivity_analysis: one IRR candidate per trial,
appended when it is non-null and strictly between 0 and 5. -/
def acceptedSample (p : Params) (draws : List (ℚ × ℚ)) : List ℚ :=
  draws.filterMap fun d =>
    match calculate_irr (project_cash_flows (sensitivityTrialParams p d)) with
    | none => none
    | some irr => if 0 < irr ∧ irr < 5 then some irr else none

/-- The parameter object after the trial loop and the restoration loop of
sensitivity_analysis.  The loop leaves the last trial's perturbation in
place; restoration then writes the saved originals back under the keys
utilization_rate, price_spread and construction_cost.  The fourth saved key
is the string subsidy, and setattr with that key creates a fresh attribute
instead of touching subsidy_per_station; since the trial loop never writes
subsidy_per_station either, that field keeps its original value throughout. -/
def sensitivityFinalParams (p : Params) (draws : List (ℚ × ℚ)) : Params :=
  let looped := draws.foldl (fun _cur d => sensitivityTrialParams p d) p
  { looped with
    utilization_rate := p.utilization_rate
    price_spread := p.price_spread
    construction_cost := p.construction_cost }

/-- The nearest-rank percentile helper get_percentile of
sensitivity_analysis: index n * p / 100 truncated, clamped to the last
index. -/
def get_percentile (sorted_results : List ℚ) (p : ℕ) : ℚ :=
  let n := sorted_results.length
  let index := n * p / 100
  let index2 := if n ≤ index then n - 1 else index
  sorted_results.getD index2 0

/-- The dictionary returned by sensitivity_analysis.  np.std is the square
root of the population variance; the variance is stored here (std_sq_irr)
because the square root of a rational need not be rational.  The
zero-sample branch of the source writes the literal 0 for std_irr, which the
variance representation preserves exactly. -/
structure SensitivitySummary where
  mean_irr : ℚ
  std_sq_irr : ℚ
  percentile_5 : ℚ
  percentile_25 : ℚ
  percentile_50 : ℚ
  percentile_75 : ℚ
  percentile_95 : ℚ
  probability_above_10pct : ℚ
  probability_above_15pct : ℚ

/-- The statistics part of sensitivity_analysis: the zero-sample fallback
branch recomputes the deterministic base-case IRR under the restored
parameters; the main branch aggregates the accepted samples. -/
def sensitivitySummary (p : Params) (draws : List (ℚ × ℚ)) : SensitivitySummary :=
  let results := acceptedSample p draws
  if results = [] then
    let base_irr := calculate_irr (project_cash_flows p)
    { mean_irr := pyOrZero base_irr
      std_sq_irr := 0
      percentile_5 := pyOrZero base_irr
      percentile_25 := pyOrZero base_irr
      percentile_50 := pyOrZero base_irr
      percentile_75 := pyOrZero base_irr
      percentile_95 := pyOrZero base_irr
      probability_above_10pct := if pyIrrAbove base_irr (10/100) then 1 else 0
      probability_above_15pct := if pyIrrAbove base_irr (15/100) then 1 else 0 }
  else
    let sorted_results := results.mergeSort
    let n := results.length
    let mean := results.sum / (n : ℚ)
    { mean_irr := mean
      std_sq_irr := ((results.map fun x => (x - mean) ^ 2).sum) / (n : ℚ)
      percentile_5 := get_percentile sorted_results 5
      percentile_25 := get_percentile sorted_results 25
      percentile_50 := get_percentile sorted_results 50
      percentile_75 := get_percentile sorted_results 75
      percentile_95 := get_percentile sorted_results 95
      probability_above_10pct := ((results.filter fun x => 10/100 < x).length : ℚ) / (n : ℚ)
      probability_above_15pct := ((results.filter fun x => 15/100 < x).length : ℚ) / (n : ℚ) }

/-- ProjectFinanceModel.sensitivity_analysis: the returned statistics
dictionary together with the state of the shared parameter object after the
call. -/
def sensitivity_analysis (p : Params) (draws : List (ℚ × ℚ)) :
    SensitivitySummary × Params :=
  (sensitivitySummary p draws, sensitivityFinalParams p draws)

/-- The dictionary returned by REITsModel.calculate_reits_valuation. -/
structure ReitsResult where
  package_size_stations : ℚ
  annual_noi : ℚ
  reits_valuation : ℚ
  distribution_yield : ℚ
  original_shares_value : ℚ
  cash_proceeds : ℚ
  meets_distribution_requirement : Bool

/-- REITsModel.calculate_reits_valuation. -/
def calculate_reits_valuation (p : Params) : ReitsResult :=
  let single_station := calculate_profitability p
  let annual_noi_per_station := single_station.ebitda / 100000000
  let package_noi := annual_noi_per_station * p.reits_package_size
  let reits_valuation := package_noi / p.reits_cap_rate
  let original_shares : ℚ := 20/100
  let public_shares : ℚ := 80/100
  let distribution_yield := if 0 < reits_valuation then package_noi / reits_valuation else 0
  { package_size_stations := p.reits_package_size
    annual_noi := package_noi
    reits_valuation := reits_valuation
    distribution_yield := distribution_yield
    original_shares_value := reits_valuation * original_shares
    cash_proceeds := reits_valuation * public_shares
    meets_distribution_requirement := decide (p.reits_distribution_yield ≤ distribution_yield) }

/-! Helper lemmas shared by several claims. -/

lemma pyAbs_eq_abs (x : ℚ) : pyAbs x = |x| := by
  unfold pyAbs
  split
  · rw [abs_of_neg]; assumption
  · rw [abs_of_nonneg]; linarith

lemma pyOrZero_some (x : ℚ) : pyOrZero (some x) = x := by
  by_cases hx : x = 0 <;> simp [pyOrZero, hx]

lemma npvTermsFrom_of_all_zero (rate : ℚ) :
    ∀ (l : List ℚ) (i : ℕ), (∀ x ∈ l, x = 0) → npvTermsFrom rate l i = 0
  | [], _, _ => rfl
  | cf :: rest, i, h => by
    have hcf : cf = 0 := h cf (by simp)
    have hrest := npvTermsFrom_of_all_zero rate rest (i + 1)
      (fun x hx => h x (List.mem_cons_of_mem _ hx))
    simp [npvTermsFrom, hcf, hrest]

lemma npv_function_of_all_zero {l : List ℚ} (h : ∀ x ∈ l, x = 0) (rate : ℚ) :
    npv_function l rate = 0 :=
  npvTermsFrom_of_all_zero rate l 0 h

/-- When the NPV function vanishes identically, the very first bisection
midpoint already passes the tolerance test, so the loop stops there whatever
the fuel. -/
lemma bisectGo_of_npv_zero {cash_flows : List ℚ}
    (h : ∀ rate, npv_function cash_flows rate = 0) (fuel : ℕ) (low high : ℚ) :
    bisectGo cash_flows fuel low high = (low + high) / 2 := by
  cases fuel with
  | zero => rfl
  | succ n =>
    have habs : pyAbs (npv_function cash_flows ((low + high) / 2)) < irrTolerance := by
      rw [h, pyAbs_eq_abs]
      norm_num [irrTolerance]
    simp only [bisectGo, if_pos habs]

/-- The convergence-flagged loop under an identically vanishing NPV. -/
lemma bisectGoConv_of_npv_zero {cash_flows : List ℚ}
    (h : ∀ rate, npv_function cash_flows rate = 0) (fuel : ℕ) (low high : ℚ) :
    bisectGoConv cash_flows fuel low high = ((low + high) / 2, true) := by
  have habs : pyAbs (npv_function cash_flows ((low + high) / 2)) < irrTolerance := by
    rw [h, pyAbs_eq_abs]
    norm_num [irrTolerance]
  cases fuel with
  | zero => simp only [bisectGoConv, decide_eq_true_eq, habs, Prod.mk.injEq, and_self]
  | succ n => simp only [bisectGoConv, if_pos habs]

lemma calculate_irr_of_all_zero {l : List ℚ} (h : ∀ x ∈ l, x = 0) :
    calculate_irr l = some (1/20) := by
  have hnpv : ∀ rate, npv_function l rate = 0 := npv_function_of_all_zero h
  unfold calculate_irr irrBisect
  rw [bisectGo_of_npv_zero hnpv]
  norm_num

/-- The bisection result always stays inside the current search interval. -/
lemma bisectGo_mem (cash_flows : List ℚ) :
    ∀ (fuel : ℕ) (low high : ℚ), low ≤ high →
      low ≤ bisectGo cash_flows fuel low high ∧ bisectGo cash_flows fuel low high ≤ high
  | 0, low, high, h => by
    constructor <;> · simp only [bisectGo]; linarith
  | Nat.succ n, low, high, h => by
    simp only [bisectGo]
    split
    · constructor <;> linarith
    · split
      · have ih := bisectGo_mem cash_flows n ((low + high) / 2) high (by linarith)
        constructor <;> linarith [ih.1, ih.2]
      · have ih := bisectGo_mem cash_flows n low ((low + high) / 2) (by linarith)
        constructor <;> linarith [ih.1, ih.2]

/-! Claim C1. -/

/-- C1: calculate_revenue returns the product formula for
annual_charging_kwh, the multiplicative service and auxiliary revenues, the
fixed other_revenue constant, and a total_revenue that is exactly their sum;
at the default parameters the annual charging volume is 4,730,400 kWh and
the service revenue 2,601,720. -/
theorem claim1_revenue_formula :
    (∀ p : Params,
      (calculate_revenue p).annual_charging_kwh
          = p.gun_power * p.utilization_rate * p.daily_hours * p.guns_per_station
              * p.operating_days ∧
      (calculate_revenue p).service_revenue
          = (calculate_revenue p).annual_charging_kwh * p.price_spread ∧
      (calculate_revenue p).auxiliary_revenue
          = (calculate_revenue p).service_revenue * p.auxiliary_premium ∧
      (calculate_revenue p).other_revenue = 120000 ∧
      (calculate_revenue p).total_revenue
          = (calculate_revenue p).service_revenue + (calculate_revenue p).auxiliary_revenue
              + (calculate_revenue p).other_revenue) ∧
    (calculate_revenue defaultParams).annual_charging_kwh = 4730400 ∧
    (calculate_revenue defaultParams).service_revenue = 2601720 := by
  refine ⟨fun p => ⟨rfl, rfl, rfl, rfl, rfl⟩, ?_, ?_⟩
  · norm_num [calculate_revenue, defaultParams]
  · norm_num [calculate_revenue, defaultParams]

/-! Claim C2. -/

/-- C2 counterexample: for the all-zero cash-flow series (no investment
occurred), calculate_irr does not report a null IRR; the NPV function is
identically zero, the first bisection midpoint 0.05 passes the tolerance
test, and 0.05 is returned. -/
theorem claim2_null_irr_counterexample :
    calculate_irr [0, 0, 0, 0] = some (1/20) :=
  calculate_irr_of_all_zero (by intro x hx; simpa using hx)

/-- C2 amended: calculate_irr never reports a null IRR.  When no investment
occurred the bisection still returns a numeric midpoint (0.05 for all-zero
cash flows, since the NPV vanishes identically); the approximate-IRR
fallback, whose result is indeed null exactly when the total negative flow
is zero, sits in an exception handler that exact-arithmetic bisection never
enters. -/
theorem claim2_amended_irr_never_null :
    (∀ cash_flows : List ℚ, (∀ x ∈ cash_flows, x = 0) →
        calculate_irr cash_flows = some (1/20)) ∧
    (∀ cash_flows : List ℚ, calculate_irr cash_flows ≠ none) ∧
    (∀ cash_flows : List ℚ, (cash_flows.filter (fun cf => cf < 0)).sum = 0 →
        approximate_irr cash_flows = none) := by
  refine ⟨fun l h => calculate_irr_of_all_zero h, fun l => by simp [calculate_irr], ?_⟩
  intro l h
  simp only [approximate_irr, if_pos h]

/-- C2 amended, witness at concrete inputs. -/
theorem claim2_amended_witness :
    calculate_irr [0, 0] = some (1/20) ∧ approximate_irr [1, 2] = none := by
  constructor
  · exact claim2_amended_irr_never_null.1 [0, 0] (by intro x hx; simpa using hx)
  · refine claim2_amended_irr_never_null.2.2 [1, 2] ?_
    norm_num [List.filter]

/-! Claim C9. -/

/-- C9: calculate_irr is total: it always returns the bisection value, never
None, and that value is a midpoint lying in the bounded search interval
from -0.9 to 1.0; the exception branch holding the approximate-IRR fallback
is unreachable under exact arithmetic. -/
theorem claim9_irr_total_in_range (cash_flows : List ℚ) :
    calculate_irr cash_flows = some (irrBisect cash_flows) ∧
    -(9/10) ≤ irrBisect cash_flows ∧ irrBisect cash_flows ≤ 1 := by
  have h := bisectGo_mem cash_flows 99 (-(9/10)) 1 (by norm_num)
  exact ⟨rfl, h.1, h.2⟩

/-! Claim C3. -/

/-- C3 counterexample: the singleton series with one positive flow.  Its NPV
equals 1 at every rate, so bisection exhausts its 100-iteration cap and
returns a midpoint at which the NPV magnitude 1 is far above the 1e-6
tolerance, although calculate_irr reports that midpoint as a defined IRR. -/
theorem claim3_tolerance_counterexample :
    calculate_irr [1] = some (irrBisect [1]) ∧
    ¬ |calculate_npv [1] (irrBisect [1])| < irrTolerance := by
  refine ⟨rfl, ?_⟩
  have h : calculate_npv [1] (irrBisect [1]) = 1 := by
    simp [calculate_npv, npv_function, npvTermsFrom]
  rw [h]
  norm_num [irrTolerance]

lemma bisectGoConv_fst (cash_flows : List ℚ) :
    ∀ (fuel : ℕ) (low high : ℚ),
      (bisectGoConv cash_flows fuel low high).1 = bisectGo cash_flows fuel low high
  | 0, low, high => rfl
  | Nat.succ n, low, high => by
    simp only [bisectGoConv, bisectGo]
    split
    · rfl
    · split
      · exact bisectGoConv_fst cash_flows n _ _
      · exact bisectGoConv_fst cash_flows n _ _

lemma bisectGoConv_tolerance (cash_flows : List ℚ) :
    ∀ (fuel : ℕ) (low high : ℚ), (bisectGoConv cash_flows fuel low high).2 = true →
      pyAbs (npv_function cash_flows (bisectGoConv cash_flows fuel low high).1) < irrTolerance
  | 0, low, high, h => by
    simpa using of_decide_eq_true h
  | Nat.succ n, low, high, h => by
    revert h
    simp only [bisectGoConv]
    split
    · intro _; simpa using by assumption
    · split
      · exact bisectGoConv_tolerance cash_flows n _ _
      · exact bisectGoConv_tolerance cash_flows n _ _

/-- C3 amended: the tolerance bound on the NPV at the returned IRR holds
whenever the bisection run converged, that is, returned through the
tolerance test; when the 100-iteration cap is exhausted without the test
ever firing, calculate_irr still reports the final midpoint as a defined
IRR, and the bound can fail there. -/
theorem claim3_amended_converged_tolerance (cash_flows : List ℚ)
    (h : (irrBisectConv cash_flows).2 = true) :
    calculate_irr cash_flows = some (irrBisect cash_flows) ∧
    |calculate_npv cash_flows (irrBisect cash_flows)| < irrTolerance := by
  refine ⟨rfl, ?_⟩
  have hfst := bisectGoConv_fst cash_flows 99 (-(9/10)) 1
  have htol := bisectGoConv_tolerance cash_flows 99 (-(9/10)) 1 h
  rw [hfst, pyAbs_eq_abs] at htol
  exact htol

/-- C3 amended, witness: on the all-zero singleton series the bisection
converges at the first midpoint, and the NPV bound holds there. -/
theorem claim3_amended_witness :
    (irrBisectConv [0]).2 = true ∧
    |calculate_npv [0] (irrBisect [0])| < irrTolerance := by
  have hnpv : ∀ rate, npv_function [0] rate = 0 :=
    npv_function_of_all_zero (by intro x hx; simpa using hx)
  have hconv : (irrBisectConv [0]).2 = true := by
    unfold irrBisectConv
    rw [bisectGoConv_of_npv_zero hnpv]
  exact ⟨hconv, (claim3_amended_converged_tolerance [0] hconv).2⟩

/-! Claim C4. -/

lemma sensitivityLoop_subsidy (p : Params) :
    ∀ (draws : List (ℚ × ℚ)) (acc : Params),
      acc.subsidy_per_station = p.subsidy_per_station →
      (draws.foldl (fun _cur d => sensitivityTrialParams p d) acc).subsidy_per_station
        = p.subsidy_per_station
  | [], _, h => h
  | _ :: ds, _, _ => sensitivityLoop_subsidy p ds _ rfl

/-- C4: after sensitivity_analysis returns, every one of the four fields
named in its saved-originals table (utilization_rate, price_spread,
construction_cost, subsidy_per_station) holds its pre-call value, for every
parameter set and every list of trial draws (hence every trial count,
including zero). -/
theorem claim4_params_restored (p : Params) (draws : List (ℚ × ℚ)) :
    (sensitivity_analysis p draws).2.utilization_rate = p.utilization_rate ∧
    (sensitivity_analysis p draws).2.price_spread = p.price_spread ∧
    (sensitivity_analysis p draws).2.construction_cost = p.construction_cost ∧
    (sensitivity_analysis p draws).2.subsidy_per_station = p.subsidy_per_station :=
  ⟨rfl, rfl, rfl, sensitivityLoop_subsidy p draws p rfl⟩

/-! Claim C5. -/

lemma pyIrrAbove_some_pos (b t : ℚ) (ht : 0 < t) :
    (if pyIrrAbove (some b) t then (1:ℚ) else 0) = if t < b then 1 else 0 := by
  by_cases hb : t < b
  · have hb0 : ¬ b = 0 := by intro h0; rw [h0] at hb; linarith
    simp [pyIrrAbove, hb, hb0]
  · simp [pyIrrAbove, hb]

/-- C5: when zero Monte Carlo trials are accepted into the sample,
sensitivity_analysis is still a total function of the (restored) parameters:
it computes the deterministic base-case IRR once, fills the mean and all
five percentiles with that single value, reports a zero standard deviation,
and each threshold probability collapses to 1 or 0 according to whether the
base IRR clears the threshold. -/
theorem claim5_empty_sample_base_case (p : Params) (draws : List (ℚ × ℚ))
    (h : acceptedSample p draws = []) :
    (sensitivity_analysis p draws).1.mean_irr = irrBisect (project_cash_flows p) ∧
    (sensitivity_analysis p draws).1.std_sq_irr = 0 ∧
    (sensitivity_analysis p draws).1.percentile_5 = irrBisect (project_cash_flows p) ∧
    (sensitivity_analysis p draws).1.percentile_25 = irrBisect (project_cash_flows p) ∧
    (sensitivity_analysis p draws).1.percentile_50 = irrBisect (project_cash_flows p) ∧
    (sensitivity_analysis p draws).1.percentile_75 = irrBisect (project_cash_flows p) ∧
    (sensitivity_analysis p draws).1.percentile_95 = irrBisect (project_cash_flows p) ∧
    (sensitivity_analysis p draws).1.probability_above_10pct
        = (if 10/100 < irrBisect (project_cash_flows p) then 1 else 0) ∧
    (sensitivity_analysis p draws).1.probability_above_15pct
        = (if 15/100 < irrBisect (project_cash_flows p) then 1 else 0) := by
  have h10 : (0:ℚ) < 10/100 := by norm_num
  have h15 : (0:ℚ) < 15/100 := by norm_num
  simp only [sensitivity_analysis, sensitivitySummary, h, if_pos rfl, calculate_irr,
    pyOrZero_some, pyIrrAbove_some_pos _ _ h10, pyIrrAbove_some_pos _ _ h15]
  exact ⟨rfl, rfl, rfl, rfl, rfl, rfl, rfl, rfl, rfl⟩

/-- C5 witness: default parameters with a zero-year horizon and no trials;
the empty-sample hypothesis holds and the mean equals the base IRR. -/
theorem claim5_empty_sample_witness :
    acceptedSample { defaultParams with project_years := 0 } [] = [] ∧
    (sensitivity_analysis { defaultParams with project_years := 0 } []).1.mean_irr
      = irrBisect (project_cash_flows { defaultParams with project_years := 0 }) :=
  ⟨rfl, (claim5_empty_sample_base_case { defaultParams with project_years := 0 } [] rfl).1⟩

/-! Claim C6. -/

/-- C6: calculate_profitability returns a payback period equal to the net
per-station investment (construction_cost minus subsidy_per_station, in
ten-thousand-currency units) divided by the net profit converted to the same
unit whenever the net profit is positive, and the infinity sentinel whenever
the net profit is nonpositive, with no division fault. -/
theorem claim6_payback_period (p : Params) :
    (0 < (calculate_profitability p).net_profit →
      (calculate_profitability p).payback_period_years
        = (((p.construction_cost - p.subsidy_per_station)
              / ((calculate_profitability p).net_profit / 10000) : ℚ) : WithTop ℚ)) ∧
    ((calculate_profitability p).net_profit ≤ 0 →
      (calculate_profitability p).payback_period_years = ⊤) := by
  have hpb : (calculate_profitability p).payback_period_years
      = if 0 < (calculate_profitability p).net_profit
        then (((p.construction_cost - p.subsidy_per_station)
                / ((calculate_profitability p).net_profit / 10000) : ℚ) : WithTop ℚ)
        else ⊤ := rfl
  constructor
  · intro h
    rw [hpb, if_pos h]
  · intro h
    rw [hpb, if_neg (not_lt.mpr h)]

/-- C6 witness: at the default parameters the net profit is positive and the
payback period is the finite ratio. -/
theorem claim6_payback_witness :
    0 < (calculate_profitability defaultParams).net_profit ∧
    (calculate_profitability defaultParams).payback_period_years
      = (((defaultParams.construction_cost - defaultParams.subsidy_per_station)
            / ((calculate_profitability defaultParams).net_profit / 10000) : ℚ) : WithTop ℚ) := by
  have hpos : 0 < (calculate_profitability defaultParams).net_profit := by
    norm_num [calculate_profitability, calculate_costs, calculate_revenue, defaultParams]
  exact ⟨hpos, (claim6_payback_period defaultParams).1 hpos⟩

/-! Claim C7. -/

lemma clamp_eq_min (n i : ℕ) : (if n ≤ i then n - 1 else i) = min i (n - 1) := by
  split <;> omega

lemma get_percentile_eq_min_index (l : List ℚ) (a : ℕ) :
    get_percentile l a = l.getD (min (l.length * a / 100) (l.length - 1)) 0 := by
  simp only [get_percentile, clamp_eq_min]

/-- Monotonicity of the nearest-rank selection on a sorted sample: larger
percentile arguments pick larger (or equal) indices, and a sorted list is
monotone in its index. -/
lemma get_percentile_mono {l : List ℚ} (hs : List.Sorted (· ≤ ·) l) (hl : l ≠ [])
    {a b : ℕ} (hab : a ≤ b) : get_percentile l a ≤ get_percentile l b := by
  have hn : 0 < l.length := List.length_pos.mpr hl
  have hdiv : l.length * a / 100 ≤ l.length * b / 100 :=
    Nat.div_le_div_right (Nat.mul_le_mul_left _ hab)
  simp only [get_percentile]
  set ia := if l.length ≤ l.length * a / 100 then l.length - 1 else l.length * a / 100 with hia
  set ib := if l.length ≤ l.length * b / 100 then l.length - 1 else l.length * b / 100 with hib
  have hia_lt : ia < l.length := by
    rw [hia]; split <;> omega
  have hib_lt : ib < l.length := by
    rw [hib]; split <;> omega
  have hle : ia ≤ ib := by
    rw [hia, hib]; split <;> split <;> omega
  rw [List.getD_eq_getElem l 0 hia_lt, List.getD_eq_getElem l 0 hib_lt]
  have hrel := hs.rel_get_of_le (a := ⟨ia, hia_lt⟩) (b := ⟨ib, hib_lt⟩) (Fin.mk_le_mk.mpr hle)
  simpa using hrel

/-- C7: with a non-empty accepted sample, each reported percentile is the
element of the sorted sample at index n * p / 100 truncated and clamped to
the last index, and as a consequence the five percentiles are monotone. -/
theorem claim7_percentile_monotone (p : Params) (draws : List (ℚ × ℚ))
    (h : acceptedSample p draws ≠ []) :
    ((sensitivity_analysis p draws).1.percentile_5
        = ((acceptedSample p draws).mergeSort).getD
            (min ((acceptedSample p draws).length * 5 / 100)
              ((acceptedSample p draws).length - 1)) 0 ∧
     (sensitivity_analysis p draws).1.percentile_25
        = ((acceptedSample p draws).mergeSort).getD
            (min ((acceptedSample p draws).length * 25 / 100)
              ((acceptedSample p draws).length - 1)) 0 ∧
     (sensitivity_analysis p draws).1.percentile_50
        = ((acceptedSample p draws).mergeSort).getD
            (min ((acceptedSample p draws).length * 50 / 100)
              ((acceptedSample p draws).length - 1)) 0 ∧
     (sensitivity_analysis p draws).1.percentile_75
        = ((acceptedSample p draws).mergeSort).getD
            (min ((acceptedSample p draws).length * 75 / 100)
              ((acceptedSample p draws).length - 1)) 0 ∧
     (sensitivity_analysis p draws).1.percentile_95
        = ((acceptedSample p draws).mergeSort).getD
            (min ((acceptedSample p draws).length * 95 / 100)
              ((acceptedSample p draws).length - 1)) 0) ∧
    ((sensitivity_analysis p draws).1.percentile_5
        ≤ (sensitivity_analysis p draws).1.percentile_25 ∧
     (sensitivity_analysis p draws).1.percentile_25
        ≤ (sensitivity_analysis p draws).1.percentile_50 ∧
     (sensitivity_analysis p draws).1.percentile_50
        ≤ (sensitivity_analysis p draws).1.percentile_75 ∧
     (sensitivity_analysis p draws).1.percentile_75
        ≤ (sensitivity_analysis p draws).1.percentile_95) := by
  have h5 : (sensitivity_analysis p draws).1.percentile_5
      = get_percentile ((acceptedSample p draws).mergeSort) 5 := by
    simp only [sensitivity_analysis, sensitivitySummary]
    rw [if_neg h]
  have h25 : (sensitivity_analysis p draws).1.percentile_25
      = get_percentile ((acceptedSample p draws).mergeSort) 25 := by
    simp only [sensitivity_analysis, sensitivitySummary]
    rw [if_neg h]
  have h50 : (sensitivity_analysis p draws).1.percentile_50
      = get_percentile ((acceptedSample p draws).mergeSort) 50 := by
    simp only [sensitivity_analysis, sensitivitySummary]
    rw [if_neg h]
  have h75 : (sensitivity_analysis p draws).1.percentile_75
      = get_percentile ((acceptedSample p draws).mergeSort) 75 := by
    simp only [sensitivity_analysis, sensitivitySummary]
    rw [if_neg h]
  have h95 : (sensitivity_analysis p draws).1.percentile_95
      = get_percentile ((acceptedSample p draws).mergeSort) 95 := by
    simp only [sensitivity_analysis, sensitivitySummary]
    rw [if_neg h]
  have hlen : ((acceptedSample p draws).mergeSort).length = (acceptedSample p draws).length :=
    List.length_mergeSort (l := acceptedSample p draws)
  have hform : ∀ a : ℕ, get_percentile ((acceptedSample p draws).mergeSort) a
      = ((acceptedSample p draws).mergeSort).getD
          (min ((acceptedSample p draws).length * a / 100)
            ((acceptedSample p draws).length - 1)) 0 := by
    intro a
    rw [get_percentile_eq_min_index, hlen]
  have hsorted := List.sorted_mergeSort' (acceptedSample p draws)
  have hne2 : (acceptedSample p draws).mergeSort ≠ [] := by
    intro hnil
    apply h
    have hzero := congrArg List.length hnil
    rw [hlen] at hzero
    exact List.length_eq_zero.mp (by simpa using hzero)
  rw [h5, h25, h50, h75, h95]
  refine ⟨⟨hform 5, hform 25, hform 50, hform 75, hform 95⟩, ?_, ?_, ?_, ?_⟩ <;>
    exact get_percentile_mono hsorted hne2 (by norm_num)

/-- C7 witness: with a zero-year horizon and one trial, the bisection IRR of
the empty cash-flow series is 0.05, which is accepted, so the sample is
non-empty and the first chain inequality is delivered. -/
theorem claim7_percentile_witness :
    acceptedSample { defaultParams with project_years := 0 } [(0, 0)] ≠ [] ∧
    (sensitivity_analysis { defaultParams with project_years := 0 } [(0, 0)]).1.percentile_5
      ≤ (sensitivity_analysis { defaultParams with project_years := 0 } [(0, 0)]).1.percentile_25 := by
  have hcfs : project_cash_flows
      (sensitivityTrialParams { defaultParams with project_years := 0 } (0, 0)) = [] := rfl
  have hirr : calculate_irr (project_cash_flows
      (sensitivityTrialParams { defaultParams with project_years := 0 } (0, 0)))
        = some (1/20) := by
    rw [hcfs]
    exact calculate_irr_of_all_zero (by intro x hx; simp at hx)
  have hne : acceptedSample { defaultParams with project_years := 0 } [(0, 0)] = [1/20] := by
    simp only [acceptedSample, List.filterMap_cons, List.filterMap_nil, hirr]
    norm_num
  have hne2 : acceptedSample { defaultParams with project_years := 0 } [(0, 0)] ≠ [] := by
    rw [hne]
    simp
  exact ⟨hne2,
    (claim7_percentile_monotone { defaultParams with project_years := 0 } [(0, 0)] hne2).2.1⟩

/-! Claim C8. -/

/-- C8: calculate_reits_valuation guards the distribution yield with a zero
fallback for a nonpositive asset value; for a positive asset value the yield
is the NOI to valuation ratio and is numerically identical to the
capitalization rate, and the distribution requirement flag holds exactly
when the yield reaches the configured threshold. -/
theorem claim8_distribution_yield (p : Params) :
    ((calculate_reits_valuation p).reits_valuation ≤ 0 →
        (calculate_reits_valuation p).distribution_yield = 0) ∧
    (0 < (calculate_reits_valuation p).reits_valuation →
        (calculate_reits_valuation p).distribution_yield
            = (calculate_reits_valuation p).annual_noi
                / (calculate_reits_valuation p).reits_valuation ∧
        (calculate_reits_valuation p).distribution_yield = p.reits_cap_rate) ∧
    ((calculate_reits_valuation p).meets_distribution_requirement = true ↔
        p.reits_distribution_yield ≤ (calculate_reits_valuation p).distribution_yield) := by
  have hval : (calculate_reits_valuation p).reits_valuation
      = (calculate_reits_valuation p).annual_noi / p.reits_cap_rate := rfl
  have hyield : (calculate_reits_valuation p).distribution_yield
      = if 0 < (calculate_reits_valuation p).reits_valuation
        then (calculate_reits_valuation p).annual_noi
            / (calculate_reits_valuation p).reits_valuation
        else 0 := rfl
  have hmeets : (calculate_reits_valuation p).meets_distribution_requirement
      = decide (p.reits_distribution_yield
          ≤ (calculate_reits_valuation p).distribution_yield) := rfl
  refine ⟨?_, ?_, ?_⟩
  · intro hle
    rw [hyield, if_neg (not_lt.mpr hle)]
  · intro hpos
    have hnoi : (calculate_reits_valuation p).annual_noi ≠ 0 := by
      intro h0
      rw [hval, h0, zero_div] at hpos
      exact lt_irrefl 0 hpos
    have hform : (calculate_reits_valuation p).distribution_yield
        = (calculate_reits_valuation p).annual_noi
            / (calculate_reits_valuation p).reits_valuation := by
      rw [hyield, if_pos hpos]
    refine ⟨hform, ?_⟩
    rw [hform, hval, div_div_eq_mul_div, mul_comm, mul_div_assoc, div_self hnoi, mul_one]
  · rw [hmeets, decide_eq_true_iff]

/-- C8 witness: at the defaults the asset value is positive and the yield
collapses to the capitalization rate. -/
theorem claim8_distribution_witness :
    0 < (calculate_reits_valuation defaultParams).reits_valuation ∧
    (calculate_reits_valuation defaultParams).distribution_yield
      = defaultParams.reits_cap_rate := by
  have hpos : 0 < (calculate_reits_valuation defaultParams).reits_valuation := by
    norm_num [calculate_reits_valuation, calculate_profitability, calculate_costs,
      calculate_revenue, defaultParams]
  exact ⟨hpos, ((claim8_distribution_yield defaultParams).2.1 hpos).2⟩

/-! Claim C10. -/

/-- C10: with nonnegative revenue parameters, the total revenue is at least
the fixed other-revenue constant 120000 and hence strictly positive, so the
zero-revenue guard branches are never taken and both margins are the plain
ratios to the total revenue. -/
theorem claim10_margin_guard (p : Params)
    (h1 : 0 ≤ p.gun_power) (h2 : 0 ≤ p.utilization_rate) (h3 : 0 ≤ p.daily_hours)
    (h4 : 0 ≤ p.guns_per_station) (h5 : 0 ≤ p.operating_days)
    (h6 : 0 ≤ p.price_spread) (h7 : 0 ≤ p.auxiliary_premium) :
    120000 ≤ (calculate_revenue p).total_revenue ∧
    0 < (calculate_revenue p).total_revenue ∧
    (calculate_profitability p).ebitda_margin
        = (calculate_profitability p).ebitda / (calculate_revenue p).total_revenue ∧
    (calculate_profitability p).net_margin
        = (calculate_profitability p).net_profit / (calculate_revenue p).total_revenue := by
  have hserv : 0 ≤ (calculate_revenue p).service_revenue := by
    show 0 ≤ p.gun_power * p.utilization_rate * p.daily_hours * p.guns_per_station
        * p.operating_days * p.price_spread
    exact mul_nonneg (mul_nonneg (mul_nonneg (mul_nonneg (mul_nonneg h1 h2) h3) h4) h5) h6
  have haux : 0 ≤ (calculate_revenue p).auxiliary_revenue := by
    show 0 ≤ (calculate_revenue p).service_revenue * p.auxiliary_premium
    exact mul_nonneg hserv h7
  have htot : (calculate_revenue p).total_revenue
      = (calculate_revenue p).service_revenue + (calculate_revenue p).auxiliary_revenue
          + 120000 := rfl
  have h120 : 120000 ≤ (calculate_revenue p).total_revenue := by
    rw [htot]
    linarith
  have hpos : 0 < (calculate_revenue p).total_revenue := by linarith
  have hem : (calculate_profitability p).ebitda_margin
      = if 0 < (calculate_revenue p).total_revenue
        then (calculate_profitability p).ebitda / (calculate_revenue p).total_revenue
        else 0 := rfl
  have hnm : (calculate_profitability p).net_margin
      = if 0 < (calculate_revenue p).total_revenue
        then (calculate_profitability p).net_profit / (calculate_revenue p).total_revenue
        else 0 := rfl
  refine ⟨h120, hpos, ?_, ?_⟩
  · rw [hem, if_pos hpos]
  · rw [hnm, if_pos hpos]

/-- C10 witness: the default parameters are nonnegative and the lower bound
on the total revenue holds there. -/
theorem claim10_margin_witness :
    (0:ℚ) ≤ defaultParams.utilization_rate ∧
    120000 ≤ (calculate_revenue defaultParams).total_revenue := by
  refine ⟨by norm_num [defaultParams], ?_⟩
  exact (claim10_margin_guard defaultParams (by norm_num [defaultParams])
    (by norm_num [defaultParams]) (by norm_num [defaultParams]) (by norm_num [defaultParams])
    (by norm_num [defaultParams]) (by norm_num [defaultParams])
    (by norm_num [defaultParams])).1

end SuperCharging
